import Mathlib

/-!
Verification development for the coupon-posting bot in `main.py`
(repository CuponsdeDesconto).

The embedding below is a shallow model of `main.py`, translated function by
function.  External effects (HTTP requests, the Telegram API, the filesystem
slot `cupom.png`) are made explicit: each cycle receives an environment record
describing the outcome of every external call, and the mutable state
(`posted_coupons`, the artifact file) is threaded explicitly.
-/

/- Global configuration constants, `main.py` lines 14-16. -/

def RECONNECT_DELAY : Nat := 60

def POST_INTERVAL : Nat := 6 * 60 * 60

def MAX_RETRIES : Nat := 5

/-- A coupon candidate as built by `buscar_cupons_google` (`main.py` lines
67-76): `titulo`, `descricao`, `link`, optional `imagem` URL, and `fonte`. -/
structure Cupom where
  titulo : String
  descricao : String
  link : String
  imagem : Option String
  fonte : String
deriving DecidableEq

/-- The JSON body returned by a successful ShrinkMe HTTP call, as read by
`shorten_url` (`main.py` lines 236-238): `data.get("status")` and
`data.get("shortenedUrl", url)`. -/
structure ShrinkMeData where
  status : Option String
  shortenedUrl : Option String
deriving DecidableEq

/-- `shorten_url` (`main.py` lines 226-244).  `apiKey` models the
`SHRINKME_API` environment variable (`None` = not configured); `resp` models
the outcome of the HTTP call (`none` = the request raised: network error,
timeout, non-2xx status or JSON failure).  The Lean function is total, which
reflects that every failure path of the Python function is caught and returns
the original `url`. -/
def shorten_url (apiKey : Option String) (resp : Option ShrinkMeData)
    (url : String) : String :=
  match apiKey with
  | none => url
  | some _ =>
    match resp with
    | none => url
    | some data =>
      if data.status = some "success" then data.shortenedUrl.getD url
      else url

/-- The caption composed at `main.py` line 125:
`f"🎁 {titulo}\n\n📝 {descricao}\n\n🔗 {link}\n\n}"`.  The trailing lone
closing brace of the template is kept as literal text. -/
def mkCaption (titulo descricao link : String) : String :=
  "🎁 " ++ titulo ++ "\n\n📝 " ++ descricao ++ "\n\n🔗 " ++ link ++ "\n\n\x7d"

/-- The content of the single artifact slot `cupom.png`: either an image
downloaded from a URL (`download_image`) or an image rendered from a title
(`create_image`). -/
inductive Artifact where
  | downloaded (url : String)
  | rendered (titulo : String)
deriving DecidableEq

/-- `download_image` (`main.py` lines 213-224): on success it overwrites the
artifact slot with the downloaded image and returns `True`; on any failure
(caught inside the function) it returns `False` and the slot is unchanged.
`ok` models whether the HTTP download succeeds. -/
def download_image (ok : Bool) (url : String) (slot : Option Artifact) :
    Bool × Option Artifact :=
  if ok then (true, some (Artifact.downloaded url)) else (false, slot)

/-- `create_image` (`main.py` lines 197-211): on success it overwrites the
artifact slot with an image rendered from `titulo`; on any failure (caught
inside the function) the slot is unchanged.  It returns nothing. -/
def create_image (ok : Bool) (titulo : String) (slot : Option Artifact) :
    Option Artifact :=
  if ok then some (Artifact.rendered titulo) else slot

/-- The artifact-production step of `post_cupons` (`main.py` lines 128-132):
`imagem_gerada = download_image(...) if cupom["imagem"] else False`;
`if not imagem_gerada: create_image(titulo)`. -/
def produceArtifact (cupom : Cupom) (downloadOk renderOk : Bool)
    (slot : Option Artifact) : Option Artifact :=
  let step := match cupom.imagem with
    | some u => download_image downloadOk u slot
    | none => (false, slot)
  if step.1 then step.2 else create_image renderOk cupom.titulo step.2

/-- The send performed by the publish step: `send_photo` when the artifact
file exists (`main.py` lines 135-141), `send_message` otherwise (lines
144-148). -/
inductive SendKind where
  | photo (a : Artifact) (caption : String)
  | text (caption : String)
deriving DecidableEq

/-- Whether a send is a photo send. -/
def SendKind.isPhoto : SendKind → Bool
  | .photo _ _ => true
  | .text _ => false

/-- Outcomes of all external calls made during one execution of
`post_cupons`.  `cupons` is the batch returned by `get_cupons`, i.e. the
already concatenated and shuffled candidates; `sendOk` tells whether the
Telegram send call succeeds (raises otherwise). -/
structure CycleEnv where
  cupons : List Cupom
  apiKey : Option String
  shrinkResp : Option ShrinkMeData
  downloadOk : Bool
  renderOk : Bool
  sendOk : Bool
deriving DecidableEq

/-- The observable result of one execution of `post_cupons`: the new
`posted_coupons` set, the new artifact slot, the candidate selected for
publication (if any), the send that was attempted (if any), and whether the
send succeeded (in which case the title was recorded). -/
structure CycleResult where
  posted : Finset String
  slot : Option Artifact
  attempted : Option Cupom
  sent : Option SendKind
  published : Bool
deriving DecidableEq

/-- The deduplication step of `post_cupons` (`main.py` lines 113-117):
keep the candidates whose `titulo` is not in `posted_coupons`; if none
remain, clear `posted_coupons` and fall back to the full batch.  Returns the
candidate list to proceed with and the (possibly cleared) history. -/
def filterNew (cupons : List Cupom) (posted : Finset String) :
    List Cupom × Finset String :=
  let newCoupons := cupons.filter (fun c => decide (c.titulo ∉ posted))
  if newCoupons.isEmpty then (cupons, ∅) else (newCoupons, posted)

/-- The inner try-block of `post_cupons` (`main.py` lines 121-155) applied to
the selected candidate `cupom`, given the post-dedup history `posted1`: it
composes the caption, produces the artifact, sends a photo if the artifact
file exists and plain text otherwise, and records the title into the history
exactly when the send succeeds.  When the send raises, the exception is
caught at line 154 and only logged: the history is left as `posted1` and
nothing is re-raised. -/
def publishStep (env : CycleEnv) (posted1 : Finset String)
    (slot : Option Artifact) (cupom : Cupom) : CycleResult :=
  let link := shorten_url env.apiKey env.shrinkResp cupom.link
  let caption := mkCaption cupom.titulo cupom.descricao link
  let slot1 := produceArtifact cupom env.downloadOk env.renderOk slot
  let send := match slot1 with
    | some a => SendKind.photo a caption
    | none => SendKind.text caption
  if env.sendOk then
    ⟨insert cupom.titulo posted1, slot1, some cupom, some send, true⟩
  else
    ⟨posted1, slot1, some cupom, some send, false⟩

/-- `post_cupons` (`main.py` lines 103-161): return early on an empty batch
(line 108), deduplicate (lines 113-117), then publish the first remaining
candidate `new_coupons[0]` (lines 119-155).  At most one candidate is
attempted per call, by construction of the code path. -/
def post_cupons (env : CycleEnv) (posted : Finset String)
    (slot : Option Artifact) : CycleResult :=
  if env.cupons.isEmpty then ⟨posted, slot, none, none, false⟩
  else
    match (filterNew env.cupons posted).1 with
    | [] => ⟨(filterNew env.cupons posted).2, slot, none, none, false⟩
    | cupom :: _ => publishStep env (filterNew env.cupons posted).2 slot cupom

/- ## The `run` retry loop (`main.py` lines 163-195), as a state machine.

One step of the machine performs the operation of the current phase
(`initialize_bot` while connecting, one `post_cupons` cycle while cycling)
with outcome `ok`, after first consulting `should_restart` at the loop head,
exactly as the corresponding `while` loop does. -/

/-- Control position inside `BotManager.run`:  `connecting` is the head of
the outer `while` (about to call `initialize_bot`, lines 166-168),
`cycling` is the head of the inner `while` (about to call `post_cupons`,
lines 174-176), `terminated` means both loops have been exited. -/
inductive Phase where
  | connecting
  | cycling
  | terminated
deriving DecidableEq

/-- The waits performed by `run`: `asyncio.sleep(POST_INTERVAL)` at line 178
and `asyncio.sleep(RECONNECT_DELAY)` at lines 182 and 195. -/
inductive Wait where
  | post_interval
  | reconnect_delay
deriving DecidableEq

/-- State of `BotManager.run`: the control phase, the local `retry_count`
(line 164), the `should_restart` flag (line 31), and the number of
`Bot(token=...)` objects constructed so far (line 41) — each call to
`initialize_bot` builds a fresh session object. -/
structure RunState where
  phase : Phase
  retry_count : Nat
  should_restart : Bool
  sessions_built : Nat
deriving DecidableEq

/-- One step of `BotManager.run` (`main.py` lines 163-195).  In phase
`connecting`, `ok` is the outcome of `initialize_bot`: on success
`retry_count` is reset to `0` (line 171) and the inner cycle loop is entered;
on failure the outer `except` runs (lines 185-195): `retry_count` is
incremented, and when it reaches `MAX_RETRIES` the loop sets
`should_restart = False` and breaks (terminal), otherwise it waits
`RECONNECT_DELAY` and retries the connection.  In phase `cycling`, `ok` is
the outcome of one `post_cupons` cycle: on success the loop waits
`POST_INTERVAL` and re-enters the cycle loop; on failure the inner `except`
(lines 179-183) waits `RECONNECT_DELAY` and `break`s out of the inner loop,
returning control to the outer loop head, i.e. to `connecting`.  Each
`while` head first checks `should_restart` and exits when it is unset. -/
def run_step (s : RunState) (ok : Bool) : RunState × Option Wait :=
  match s.phase with
  | .terminated => (s, none)
  | .connecting =>
    if s.should_restart then
      let s1 : RunState := { s with sessions_built := s.sessions_built + 1 }
      if ok then
        ({ s1 with phase := .cycling, retry_count := 0 }, none)
      else
        let rc := s.retry_count + 1
        if MAX_RETRIES ≤ rc then
          ({ s1 with phase := .terminated, retry_count := rc, should_restart := false }, none)
        else
          ({ s1 with retry_count := rc }, some .reconnect_delay)
    else ({ s with phase := .terminated }, none)
  | .cycling =>
    if s.should_restart then
      if ok then (s, some .post_interval)
      else ({ s with phase := .connecting }, some .reconnect_delay)
    else ({ s with phase := .terminated }, none)

/-- The machine started at process start (`connecting`, zero retries, flag
set, no session yet) after `k` consecutive `initialize_bot` failures. -/
def iterFail : Nat → RunState
  | 0 => ⟨.connecting, 0, true, 0⟩
  | k + 1 => (run_step (iterFail k) false).1

/- ## The inner cycle loop with real time (`main.py` lines 174-178).

`handle_exit` (lines 36-38) only sets `should_restart = False`; it does not
cancel the pending `asyncio.sleep`, so a sleep always runs to completion and
the flag is consulted only at the `while` head.  `cycleLoopRun sigTime fuel t`
is the process exit time when every cycle succeeds, a cycle itself takes
negligible time compared to the 6-hour sleep, the termination signal arrives
at time `sigTime`, and at most `fuel` further loop iterations are observed:
at each loop head at time `t`, if the signal has arrived (`sigTime ≤ t`) the
loop exits at `t`; otherwise the cycle runs and the full
`sleep(POST_INTERVAL)` elapses. -/
def cycleLoopRun (sigTime : Nat) : Nat → Nat → Nat
  | 0, t => t
  | fuel + 1, t =>
    if sigTime ≤ t then t
    else cycleLoopRun sigTime fuel (t + POST_INTERVAL)

/-- Follows the spec's words, for comparison with `cycleLoopRun`: the claimed
behaviour in which every suspension point observes the shutdown flag and
returns early, so a sleep in progress when the signal arrives ends at the
signal time instead of running to completion. -/
def cycleLoopRunClaimed (sigTime : Nat) : Nat → Nat → Nat
  | 0, t => t
  | fuel + 1, t =>
    if sigTime ≤ t then t
    else if sigTime ≤ t + POST_INTERVAL then sigTime
    else cycleLoopRunClaimed sigTime fuel (t + POST_INTERVAL)

/- ## Basic lemmas about the cycle embedding. -/

/-- The dedup step never produces an empty candidate list from a non-empty
batch: when the filter empties it, the full batch is used instead. -/
theorem filterNew_fst_ne_nil (cupons : List Cupom) (posted : Finset String)
    (hne : cupons ≠ []) : (filterNew cupons posted).1 ≠ [] := by
  unfold filterNew
  by_cases h : (cupons.filter (fun c => decide (c.titulo ∉ posted))).isEmpty
  · rw [if_pos h]
    exact hne
  · rw [if_neg h]
    simp only [List.isEmpty_iff] at h
    exact h

/-- Unfolding `post_cupons` when the dedup step selects a first candidate. -/
theorem post_cupons_cons (env : CycleEnv) (posted : Finset String)
    (slot : Option Artifact) (sel : Cupom) (rest : List Cupom)
    (hsel : (filterNew env.cupons posted).1 = sel :: rest) :
    post_cupons env posted slot
      = publishStep env (filterNew env.cupons posted).2 slot sel := by
  have hne : env.cupons.isEmpty = false := by
    rcases h : env.cupons with _ | ⟨c, cs⟩
    · rw [h] at hsel
      simp [filterNew] at hsel
    · simp
  unfold post_cupons
  have hne' : ¬(env.cupons.isEmpty = true) := by simp [hne]
  rw [if_neg hne']
  split
  · rename_i heq
    rw [hsel] at heq
    cases heq
  · rename_i cupom tail heq
    rw [hsel] at heq
    cases heq
    rfl

/-- When some candidate is new, the dedup step keeps exactly the filtered
sub-sequence and leaves the history untouched (no reset). -/
theorem filterNew_of_exists_new (cupons : List Cupom) (posted : Finset String)
    (hnew : ∃ c ∈ cupons, c.titulo ∉ posted) :
    filterNew cupons posted
      = (cupons.filter (fun c => decide (c.titulo ∉ posted)), posted) := by
  obtain ⟨c, hc, hn⟩ := hnew
  have hmem : c ∈ cupons.filter (fun c => decide (c.titulo ∉ posted)) := by
    rw [List.mem_filter]
    exact ⟨hc, by simpa using hn⟩
  unfold filterNew
  rw [if_neg]
  simp only [List.isEmpty_iff]
  exact List.ne_nil_of_mem hmem

/-- When every candidate's title is already in the history, the dedup step
clears the history and keeps the original batch. -/
theorem filterNew_of_all_posted (cupons : List Cupom) (posted : Finset String)
    (hall : ∀ c ∈ cupons, c.titulo ∈ posted) :
    filterNew cupons posted = (cupons, ∅) := by
  unfold filterNew
  rw [if_pos]
  simp only [List.isEmpty_iff, List.filter_eq_nil_iff]
  intro c hc
  simpa using hall c hc

/-- Fields of `publishStep`: history after the attempt. -/
theorem publishStep_posted (env : CycleEnv) (p1 : Finset String)
    (slot : Option Artifact) (c : Cupom) :
    (publishStep env p1 slot c).posted
      = if env.sendOk then insert c.titulo p1 else p1 := by
  cases h : env.sendOk <;> simp [publishStep, h]

/-- Fields of `publishStep`: artifact slot after the attempt. -/
theorem publishStep_slot (env : CycleEnv) (p1 : Finset String)
    (slot : Option Artifact) (c : Cupom) :
    (publishStep env p1 slot c).slot
      = produceArtifact c env.downloadOk env.renderOk slot := by
  cases h : env.sendOk <;> simp [publishStep, h]

/-- Fields of `publishStep`: the attempted candidate. -/
theorem publishStep_attempted (env : CycleEnv) (p1 : Finset String)
    (slot : Option Artifact) (c : Cupom) :
    (publishStep env p1 slot c).attempted = some c := by
  cases h : env.sendOk <;> simp [publishStep, h]

/-- Fields of `publishStep`: success flag equals the send outcome. -/
theorem publishStep_published (env : CycleEnv) (p1 : Finset String)
    (slot : Option Artifact) (c : Cupom) :
    (publishStep env p1 slot c).published = env.sendOk := by
  cases h : env.sendOk <;> simp [publishStep, h]

/-- Fields of `publishStep`: the attempted send is a photo of the artifact
slot when one exists, the plain-text caption otherwise. -/
theorem publishStep_sent (env : CycleEnv) (p1 : Finset String)
    (slot : Option Artifact) (c : Cupom) :
    (publishStep env p1 slot c).sent
      = some (match produceArtifact c env.downloadOk env.renderOk slot with
          | some a => SendKind.photo a
              (mkCaption c.titulo c.descricao
                (shorten_url env.apiKey env.shrinkResp c.link))
          | none => SendKind.text
              (mkCaption c.titulo c.descricao
                (shorten_url env.apiKey env.shrinkResp c.link))) := by
  cases h : env.sendOk <;> simp [publishStep, h]

/- ## Concrete data used by witnesses and counterexamples. -/

/-- A candidate titled `A` with no image URL. -/
def cA : Cupom := ⟨"A", "descA", "linkA", none, "siteA"⟩

/-- A candidate titled `B` with an image URL. -/
def cB : Cupom := ⟨"B", "descB", "linkB", some "imgB", "siteB"⟩

/-- A cycle environment delivering the single candidate `cA`, with the
shortener unconfigured, rendering succeeding and the send succeeding. -/
def envW1 : CycleEnv := ⟨[cA], none, none, false, true, true⟩

/-- A cycle environment delivering the single candidate `cB`, with the
shortener unconfigured, the image download failing, the fallback rendering
failing, and the send succeeding. -/
def envBothFail : CycleEnv := ⟨[cB], none, none, false, false, true⟩

/- ## Claims. -/

/-- C1: for every non-empty candidate batch in which every candidate's title
is already in the published-title history, the deduplication step clears the
history and proceeds with the original batch unchanged (same elements, order
preserved); otherwise it proceeds with exactly the sub-sequence of candidates
whose titles are not in the history. -/
theorem C1_dedup_policy (cupons : List Cupom) (posted : Finset String)
    (_hne : cupons ≠ []) :
    ((∀ c ∈ cupons, c.titulo ∈ posted) →
      filterNew cupons posted = (cupons, ∅)) ∧
    ((∃ c ∈ cupons, c.titulo ∉ posted) →
      filterNew cupons posted
        = (cupons.filter (fun c => decide (c.titulo ∉ posted)), posted)) :=
  ⟨fun hall => filterNew_of_all_posted cupons posted hall,
   fun hnew => filterNew_of_exists_new cupons posted hnew⟩

/-- Witness for C1 on the spec's own scenario shape: both titles already in
the history, so the history is cleared and the batch kept in order. -/
theorem C1_dedup_policy_witness :
    filterNew [cA, cB] {"A", "B"} = ([cA, cB], ∅) :=
  (C1_dedup_policy [cA, cB] {"A", "B"} (by decide)).1 (by decide)

/-- C5: for every input URL, the shorten operation never raises (it is a
total function here, mirroring that every failure path of the Python code is
caught) and, on any error, timeout, non-success API response, or missing
credential, returns the original URL unchanged; consequently the composed
caption contains the original link verbatim. -/
theorem C5_shorten_fallback (apiKey : Option String)
    (resp : Option ShrinkMeData) (url titulo descricao : String)
    (hfail : apiKey = none ∨ resp = none ∨
      ∀ data, resp = some data → data.status ≠ some "success") :
    shorten_url apiKey resp url = url ∧
    ∃ a b, mkCaption titulo descricao (shorten_url apiKey resp url)
      = a ++ url ++ b := by
  have heq : shorten_url apiKey resp url = url := by
    rcases hfail with h | h | h
    · rw [h]
      rfl
    · cases apiKey with
      | none => rfl
      | some k =>
        rw [h]
        rfl
    · cases apiKey with
      | none => rfl
      | some k =>
        cases resp with
        | none => rfl
        | some data => simp [shorten_url, h data rfl]
  refine ⟨heq, "🎁 " ++ titulo ++ "\n\n📝 " ++ descricao ++ "\n\n🔗 ",
    "\n\n\x7d", ?_⟩
  rw [heq]
  rfl

/-- Witness for C5 on the spec's scenario: the shortener call times out for
`https://x/y`; the result is the original URL and the caption embeds it. -/
theorem C5_shorten_fallback_witness :
    shorten_url (some "KEY") none "https://x/y" = "https://x/y" ∧
    ∃ a b, mkCaption "T" "D" (shorten_url (some "KEY") none "https://x/y")
      = a ++ "https://x/y" ++ b :=
  C5_shorten_fallback (some "KEY") none "https://x/y" "T" "D"
    (Or.inr (Or.inl rfl))

/-- C7: the selected candidate's title is added to the published set exactly
when the channel send succeeds; if the send raises, the publish attempt
leaves the published set as it stood at the moment of the attempt (the title
is not recorded). -/
theorem C7_record_iff_send (env : CycleEnv) (posted : Finset String)
    (slot : Option Artifact) (sel : Cupom) (rest : List Cupom)
    (hsel : (filterNew env.cupons posted).1 = sel :: rest) :
    (post_cupons env posted slot).published = env.sendOk ∧
    (env.sendOk = true →
      (post_cupons env posted slot).posted
        = insert sel.titulo (filterNew env.cupons posted).2) ∧
    (env.sendOk = false →
      (post_cupons env posted slot).posted
        = (filterNew env.cupons posted).2) := by
  rw [post_cupons_cons env posted slot sel rest hsel]
  refine ⟨publishStep_published env _ slot sel, ?_, ?_⟩
  · intro h
    rw [publishStep_posted, h]
    simp
  · intro h
    rw [publishStep_posted, h]
    simp

/-- Witness for C7: with a successful send, the success flag matches. -/
theorem C7_record_iff_send_witness :
    (post_cupons envW1 ∅ none).published = envW1.sendOk :=
  (C7_record_iff_send envW1 ∅ none cA [] rfl).1

/-- C10: when the filtered (or reset) candidate sequence is non-empty, the
candidate attempted for publication is exactly its first element, and only
that element's title can be recorded; the cycle is a deterministic function
of the shuffled batch, so no further randomness is involved. -/
theorem C10_first_candidate (env : CycleEnv) (posted : Finset String)
    (slot : Option Artifact) (hne : env.cupons ≠ []) :
    (post_cupons env posted slot).attempted
      = (filterNew env.cupons posted).1.head? ∧
    ∀ t ∈ (post_cupons env posted slot).posted,
      t ∈ (filterNew env.cupons posted).2 ∨
        some t = ((filterNew env.cupons posted).1.head?.map Cupom.titulo) := by
  obtain ⟨sel, rest, hsel⟩ :=
    List.exists_cons_of_ne_nil (filterNew_fst_ne_nil env.cupons posted hne)
  rw [post_cupons_cons env posted slot sel rest hsel]
  constructor
  · rw [publishStep_attempted, hsel]
    rfl
  · intro t ht
    rw [publishStep_posted] at ht
    cases hs : env.sendOk with
    | true =>
      rw [hs] at ht
      simp only [if_true] at ht
      rcases Finset.mem_insert.mp ht with h | h
      · right
        rw [hsel, h]
        rfl
      · left
        exact h
    | false =>
      rw [hs] at ht
      simp only [Bool.false_eq_true, if_false] at ht
      left
      exact ht

/-- Witness for C10: the attempted candidate is the head of the filtered
sequence. -/
theorem C10_first_candidate_witness :
    (post_cupons envW1 ∅ none).attempted
      = (filterNew envW1.cupons ∅).1.head? :=
  (C10_first_candidate envW1 ∅ none (by decide)).1

/-- C2: for every cycle whose batch contains at least one candidate not yet
in the published set and whose send succeeds, exactly one candidate is
published (the first new one) and has its title recorded; every other new
candidate's title is not recorded, and that candidate still passes the next
cycle's deduplication, so it is not excluded from later candidacy. -/
theorem C2_single_publish (env : CycleEnv) (posted : Finset String)
    (slot : Option Artifact)
    (hnew : ∃ c ∈ env.cupons, c.titulo ∉ posted)
    (hsend : env.sendOk = true) :
    ∃ sel rest, (filterNew env.cupons posted).1 = sel :: rest ∧
      (post_cupons env posted slot).published = true ∧
      (post_cupons env posted slot).attempted = some sel ∧
      (post_cupons env posted slot).posted = insert sel.titulo posted ∧
      ∀ c ∈ env.cupons, c.titulo ∉ posted → c.titulo ≠ sel.titulo →
        c.titulo ∉ (post_cupons env posted slot).posted ∧
        c ∈ (filterNew env.cupons (post_cupons env posted slot).posted).1 := by
  have hfn := filterNew_of_exists_new env.cupons posted hnew
  have hne1 : (filterNew env.cupons posted).1 ≠ [] := by
    rw [hfn]
    obtain ⟨c, hc, hn⟩ := hnew
    exact List.ne_nil_of_mem (List.mem_filter.mpr ⟨hc, by simpa using hn⟩)
  obtain ⟨sel, rest, hsel⟩ := List.exists_cons_of_ne_nil hne1
  have hres : (post_cupons env posted slot).posted
      = insert sel.titulo posted := by
    rw [post_cupons_cons env posted slot sel rest hsel, publishStep_posted,
      hsend, hfn]
    simp
  refine ⟨sel, rest, hsel, ?_, ?_, hres, ?_⟩
  · rw [post_cupons_cons env posted slot sel rest hsel,
      publishStep_published, hsend]
  · rw [post_cupons_cons env posted slot sel rest hsel,
      publishStep_attempted]
  · intro c hc hcp hct
    have hcmem : c.titulo ∉ insert sel.titulo posted := by
      rw [Finset.mem_insert]
      push_neg
      exact ⟨hct, hcp⟩
    refine ⟨by rw [hres]; exact hcmem, ?_⟩
    rw [hres]
    have hnew2 : ∃ d ∈ env.cupons, d.titulo ∉ insert sel.titulo posted :=
      ⟨c, hc, hcmem⟩
    rw [filterNew_of_exists_new env.cupons _ hnew2]
    exact List.mem_filter.mpr ⟨hc, by simpa using hcmem⟩

/-- Witness for C2: with a single new candidate and a successful send, the
cycle publishes. -/
theorem C2_single_publish_witness :
    (post_cupons envW1 ∅ none).published = true := by
  obtain ⟨sel, rest, hsel, hpub, hrest⟩ :=
    C2_single_publish envW1 ∅ none ⟨cA, by decide, by decide⟩ rfl
  exact hpub

/-- C6 counterexample: the claim as stated is false.  An artifact rendered in
an earlier cycle (`Artifact.rendered "A"`, still in the slot because the file
`cupom.png` is never deleted) makes `os.path.exists` succeed, so when both
the download and the fallback rendering fail the publish step sends a photo
— the stale image — rather than the text-only caption. -/
theorem C6_counterexample :
    (post_cupons envBothFail ∅ (some (Artifact.rendered "A"))).sent
      = some (SendKind.photo (Artifact.rendered "A")
          (mkCaption "B" "descB" "linkB")) ∧
    ((post_cupons envBothFail ∅ (some (Artifact.rendered "A"))).sent.map
        SendKind.isPhoto) = some true := by
  constructor <;> rfl

/-- C6 (amended): if the image download fails (or no image URL is present),
the fallback image generation also fails, and no artifact file exists from an
earlier cycle, then the publish step still sends the text-only caption for
the selected candidate rather than skipping it; and in every case the
decision between photo and text is made by checking whether the artifact file
exists, not by a returned flag. -/
theorem C6_text_fallback (env : CycleEnv) (posted : Finset String)
    (sel : Cupom) (rest : List Cupom)
    (hsel : (filterNew env.cupons posted).1 = sel :: rest)
    (hdl : env.downloadOk = false ∨ sel.imagem = none)
    (hrd : env.renderOk = false) :
    (post_cupons env posted none).sent
      = some (SendKind.text (mkCaption sel.titulo sel.descricao
          (shorten_url env.apiKey env.shrinkResp sel.link))) ∧
    (post_cupons env posted none).attempted = some sel ∧
    ∀ slot' : Option Artifact,
      (post_cupons env posted slot').sent.isSome = true ∧
      ∀ s, (post_cupons env posted slot').sent = some s →
        s.isPhoto = (post_cupons env posted slot').slot.isSome := by
  have hprod : produceArtifact sel env.downloadOk env.renderOk none = none := by
    rcases hdl with h | h
    · cases him : sel.imagem with
      | none => simp [produceArtifact, create_image, him, hrd]
      | some u => simp [produceArtifact, download_image, create_image, him, h, hrd]
    · simp [produceArtifact, create_image, h, hrd]
  refine ⟨?_, ?_, ?_⟩
  · rw [post_cupons_cons env posted none sel rest hsel, publishStep_sent,
      hprod]
  · rw [post_cupons_cons env posted none sel rest hsel,
      publishStep_attempted]
  · intro slot'
    rw [post_cupons_cons env posted slot' sel rest hsel, publishStep_sent,
      publishStep_slot]
    constructor
    · rfl
    · intro s hs
      cases hp : produceArtifact sel env.downloadOk env.renderOk slot' with
      | none =>
        rw [hp] at hs
        simp only [Option.some.injEq] at hs
        rw [← hs]
        rfl
      | some a =>
        rw [hp] at hs
        simp only [Option.some.injEq] at hs
        rw [← hs]
        rfl

/-- Witness for C6 (amended): both strategies fail with an empty artifact
slot, and the candidate is sent as plain text. -/
theorem C6_text_fallback_witness :
    (post_cupons envBothFail ∅ none).sent
      = some (SendKind.text (mkCaption "B" "descB" "linkB")) :=
  (C6_text_fallback envBothFail ∅ cB [] rfl (Or.inl rfl) rfl).1

/-- C8 counterexample: the claim as stated is false.  Cycle 1 (environment
`envW1`) renders and posts candidate `A`, leaving `cupom.png` holding the
rendered image; in cycle 2 (environment `envBothFail`) both the download and
the rendering fail, the file is never deleted, and the publish step sends the
artifact produced in cycle 1 with cycle 2's caption. -/
theorem C8_counterexample :
    (post_cupons envW1 ∅ none).slot = some (Artifact.rendered "A") ∧
    (post_cupons envBothFail (post_cupons envW1 ∅ none).posted
        (post_cupons envW1 ∅ none).slot).sent
      = some (SendKind.photo (Artifact.rendered "A")
          (mkCaption "B" "descB" "linkB")) := by
  constructor <;> rfl

/-- C8 (amended): there is a single artifact slot (the fixed file
`cupom.png`), and it is overwritten during each cycle whenever the download
or the fallback rendering succeeds; but the file is never deleted, so when
both fail within a cycle the slot keeps — and the publish step may send — the
artifact produced in an earlier cycle. -/
theorem C8_slot_overwrite (env : CycleEnv) (posted : Finset String)
    (slot : Option Artifact) (sel : Cupom) (rest : List Cupom)
    (hsel : (filterNew env.cupons posted).1 = sel :: rest) :
    (post_cupons env posted slot).slot
      = produceArtifact sel env.downloadOk env.renderOk slot ∧
    (∀ u, sel.imagem = some u → env.downloadOk = true →
      (post_cupons env posted slot).slot = some (Artifact.downloaded u)) ∧
    ((env.downloadOk = false ∨ sel.imagem = none) → env.renderOk = true →
      (post_cupons env posted slot).slot
        = some (Artifact.rendered sel.titulo)) ∧
    ((env.downloadOk = false ∨ sel.imagem = none) → env.renderOk = false →
      (post_cupons env posted slot).slot = slot) := by
  rw [post_cupons_cons env posted slot sel rest hsel, publishStep_slot]
  refine ⟨rfl, ?_, ?_, ?_⟩
  · intro u hu hd
    simp [produceArtifact, download_image, hu, hd]
  · intro h hr
    rcases h with h | h
    · cases him : sel.imagem with
      | none => simp [produceArtifact, create_image, him, hr]
      | some u => simp [produceArtifact, download_image, create_image, him, h, hr]
    · simp [produceArtifact, create_image, h, hr]
  · intro h hr
    rcases h with h | h
    · cases him : sel.imagem with
      | none => simp [produceArtifact, create_image, him, hr]
      | some u => simp [produceArtifact, download_image, create_image, him, h, hr]
    · simp [produceArtifact, create_image, h, hr]

/-- Witness for C8 (amended): with both strategies failing, the stale
artifact stays in the slot. -/
theorem C8_slot_overwrite_witness :
    (post_cupons envBothFail ∅ (some (Artifact.rendered "A"))).slot
      = some (Artifact.rendered "A") :=
  (C8_slot_overwrite envBothFail ∅ (some (Artifact.rendered "A")) cB []
    rfl).2.2.2 (Or.inl rfl) rfl

/-- C3 counterexample: the claim as stated is false.  From an operational
state (cycling, zero retries, one session built), a single cycle failure does
wait `RECONNECT_DELAY`, but the inner `except` handler ends in `break`
(`main.py` line 183), so the machine leaves the cycle loop for the outer loop
head (`connecting`), and becoming operational again constructs a second
session object: the channel session IS rebuilt. -/
theorem C3_counterexample :
    (run_step ⟨Phase.cycling, 0, true, 1⟩ false).1.phase ≠ Phase.cycling ∧
    (run_step ⟨Phase.cycling, 0, true, 1⟩ false).2
      = some Wait.reconnect_delay ∧
    (run_step (run_step ⟨Phase.cycling, 0, true, 1⟩ false).1 true).1.sessions_built
      = 2 := by
  decide

/-- C3 (amended): whenever a single cycle fails, the scheduler waits
`RECONNECT_DELAY` and leaves the cycle loop for session re-establishment —
the channel session is rebuilt before cycling resumes — but the cycle failure
does not change `retry_count`, which is then reset to zero by the successful
re-establishment. -/
theorem C3_cycle_failure (rc sb : Nat) :
    run_step ⟨Phase.cycling, rc, true, sb⟩ false
      = (⟨Phase.connecting, rc, true, sb⟩, some Wait.reconnect_delay) ∧
    run_step ⟨Phase.connecting, rc, true, sb⟩ true
      = (⟨Phase.cycling, 0, true, sb + 1⟩, none) :=
  ⟨rfl, rfl⟩

/-- C4: after exactly `MAX_RETRIES` (5) consecutive session-establishment
failures the machine reaches the terminal state, having not reached it after
any smaller number of failures; the terminal state is absorbing (no further
cycles or waits are scheduled); and every successful session establishment
resets the retry counter to zero. -/
theorem C4_termination_bound :
    (iterFail MAX_RETRIES).phase = Phase.terminated ∧
    (∀ k : Fin MAX_RETRIES, (iterFail k.val).phase = Phase.connecting ∧
      (iterFail k.val).retry_count = k.val) ∧
    (∀ ok, run_step (iterFail MAX_RETRIES) ok = (iterFail MAX_RETRIES, none)) ∧
    (∀ rc sb : Nat, run_step ⟨Phase.connecting, rc, true, sb⟩ true
      = (⟨Phase.cycling, 0, true, sb + 1⟩, none)) :=
  ⟨by decide, by decide, by decide, fun rc sb => rfl⟩

/-- C9 counterexample: the claim as stated is false.  `handle_exit` only sets
the flag; `asyncio.sleep` is not cancelled.  With the termination signal
arriving at second 1, just after the first 6-hour sleep begins, the
implemented loop (`cycleLoopRun`) exits at second 21600 — after the full
6-hour sleep — while the claimed early-returning behaviour
(`cycleLoopRunClaimed`) would exit at second 1. -/
theorem C9_counterexample :
    cycleLoopRun 1 2 0 = 21600 ∧
    cycleLoopRunClaimed 1 2 0 = 1 ∧
    cycleLoopRun 1 2 0 ≠ cycleLoopRunClaimed 1 2 0 ∧
    POST_INTERVAL = 21600 := by
  decide

/-- C9 (amended): the shutdown flag is observed only at the loop heads, never
inside a wait; the in-progress sleep always completes in full, so the process
exit time is a whole number of sleep intervals and falls within one full
wait-interval after the signal, but the wait does not return early. -/
theorem C9_flag_at_loop_heads (fuel sigTime t : Nat)
    (h : t < sigTime + POST_INTERVAL) :
    (∃ k, k ≤ fuel ∧ cycleLoopRun sigTime fuel t = t + k * POST_INTERVAL) ∧
    cycleLoopRun sigTime fuel t < sigTime + POST_INTERVAL := by
  induction fuel generalizing t with
  | zero =>
    exact ⟨⟨0, Nat.le_refl 0, by simp [cycleLoopRun]⟩,
      by simpa [cycleLoopRun] using h⟩
  | succ n ih =>
    by_cases hs : sigTime ≤ t
    · refine ⟨⟨0, Nat.zero_le _, ?_⟩, ?_⟩
      · simp [cycleLoopRun, hs]
      · simpa [cycleLoopRun, hs] using h
    · have ht : t + POST_INTERVAL < sigTime + POST_INTERVAL := by
        have h2 : t < sigTime := Nat.lt_of_not_le hs
        omega
      obtain ⟨⟨k, hk, heq⟩, hlt⟩ := ih (t + POST_INTERVAL) ht
      refine ⟨⟨k + 1, Nat.succ_le_succ hk, ?_⟩, ?_⟩
      · simp only [cycleLoopRun, hs, if_false]
        rw [heq]
        ring
      · simpa [cycleLoopRun, hs] using hlt

/-- Witness for C9 (amended): signal at second 1, loop started at second 0
with two observed iterations. -/
theorem C9_flag_at_loop_heads_witness :
    (∃ k, k ≤ 2 ∧ cycleLoopRun 1 2 0 = 0 + k * POST_INTERVAL) ∧
    cycleLoopRun 1 2 0 < 1 + POST_INTERVAL :=
  C9_flag_at_loop_heads 2 1 0 (by decide)

